import Mathlib

/-!
Shallow embedding of the PromptBooster content script (content.js iteration in
part_002), the options page (part_004) and the background service worker
(src/background/serviceWorker.js).  Strings are modelled as Lean `String`
(a list of characters); DOM nodes are abstracted to the data the functions
actually inspect.
-/

namespace PromptBooster

/-- The character class matched by the JavaScript regex `\s` and trimmed by
`String.prototype.trim` (ASCII whitespace, NBSP, the Unicode space
separators, line/paragraph separators and the BOM). -/
def isJsWhitespace (c : Char) : Bool :=
  c = ' ' || c = '\t' || c = '\n' || c = '\r' || c = '\x0b' || c = '\x0c' ||
  c = '\u00A0' || c = '\u1680' || ('\u2000' ≤ c && c ≤ '\u200A') ||
  c = '\u2028' || c = '\u2029' || c = '\u202F' || c = '\u205F' ||
  c = '\u3000' || c = '\uFEFF'

/-- `collapseWsAux inRun l` scans `l` replacing every maximal run of
whitespace by a single space; `inRun` records whether the scan is currently
inside a whitespace run.  This implements the regex replacement of each
whitespace run by a single space. -/
def collapseWsAux : Bool → List Char → List Char
  | _, [] => []
  | inRun, c :: rest =>
    if isJsWhitespace c then
      if inRun then collapseWsAux true rest
      else ' ' :: collapseWsAux true rest
    else c :: collapseWsAux false rest

/-- The global whitespace-run-to-space replacement. -/
def collapseWs (l : List Char) : List Char := collapseWsAux false l

/-- `String.prototype.trim`: drop leading and trailing JS whitespace. -/
def trimChars (l : List Char) : List Char :=
  ((l.dropWhile isJsWhitespace).reverse.dropWhile isJsWhitespace).reverse

/-- `s.trim()` on a whole string. -/
def trimString (s : String) : String := ⟨trimChars s.data⟩

/-- `normalizeText` from the content script:
collapse whitespace runs to single spaces, trim, then lower-case. -/
def normalizeText (s : String) : String :=
  ⟨(trimChars (collapseWs s.data)).map Char.toLower⟩

/-- `hay.includes(needle)` for JavaScript strings, on character lists:
`containsSubstr needle hay` is `true` iff `needle` occurs contiguously in
`hay` (the empty needle occurs in every string). -/
def containsSubstr (needle : List Char) : List Char → Bool
  | [] => needle.isEmpty
  | c :: rest => needle.isPrefixOf (c :: rest) || containsSubstr needle rest

/-- One sequential single-character global replacement,
`s.replace(/target/g, rep)`. -/
def replaceAllChar (target : Char) (rep : List Char) (l : List Char) : List Char :=
  l.flatMap (fun c => if c = target then rep else [c])

/-- `escapeHtml` from the content script: the five sequential global
replacements `& → &amp;`, `< → &lt;`, `> → &gt;`, `" → &quot;`,
apostrophe to `&#039;`, applied in that order. -/
def escapeHtml (s : String) : String :=
  ⟨replaceAllChar '\'' "&#039;".data
    (replaceAllChar '"' "&quot;".data
      (replaceAllChar '>' "&gt;".data
        (replaceAllChar '<' "&lt;".data
          (replaceAllChar '&' "&amp;".data s.data))))⟩

/-- The per-character entity map that `escapeHtml` realizes. -/
def escapeChar (c : Char) : List Char :=
  if c = '&' then "&amp;".data
  else if c = '<' then "&lt;".data
  else if c = '>' then "&gt;".data
  else if c = '"' then "&quot;".data
  else if c = '\'' then "&#039;".data
  else [c]

/-- One entry of the content-script `pendingHistory` queue: the original
draft and the optimized text that was actually written and submitted. -/
structure HistRecord where
  original : String
  optimized : String
  deriving DecidableEq

/-- Result of one `annotateIfUserMessage` call: the new `pendingHistory`
and, when a note was attached to the bubble, the original text it shows. -/
structure AnnotOutcome where
  queue : List HistRecord
  noteText : Option String
  deriving DecidableEq

/-- `annotateIfUserMessage` from the content script.  The DOM checks
(`node instanceof HTMLElement` together with matching the user-message
selector, and membership in the `annotatedBubbles` weak set) are
abstracted into the two booleans; `textContent` is the text content of the
node, defaulted to the empty string. -/
def annotateIfUserMessage (isUserMsg alreadyAnnotated : Bool)
    (textContent : String) (queue : List HistRecord) : AnnotOutcome :=
  if !isUserMsg then ⟨queue, none⟩
  else if alreadyAnnotated then ⟨queue, none⟩
  else
    let normalizedText := normalizeText textContent
    if normalizedText = "" then ⟨queue, none⟩
    else
      match queue with
      | [] => ⟨[], none⟩
      | next :: rest =>
        let normalizedOptimized := normalizeText next.optimized
        if normalizedOptimized = "" then ⟨rest, none⟩
        else if containsSubstr normalizedOptimized.data normalizedText.data then
          ⟨rest, some next.original⟩
        else ⟨next :: rest, none⟩

/-- A stored item (template) as persisted in settings: `{ id, name, type,
content }`, where `type` is the string `"append"` or `"boosted"`
(`onBoostClick` branches on whether `type` equals the string `append` and
treats everything else as boosted). -/
structure Item where
  id : String
  name : String
  type : String
  content : String
  deriving DecidableEq

/-- The persisted settings fields that the modelled code reads or writes:
the ordered item list, the nullable active item id, the
`previewBeforeSend` flag and the deprecated `bindings` list. -/
structure Settings where
  items : List Item
  activeItemId : Option String
  previewBeforeSend : Bool
  bindings : List String
  deriving DecidableEq

/-- The two editable surfaces `findEditor` probes, reduced to the text they
currently hold: the ProseMirror `div#prompt-textarea` and the fallback
`textarea`.  `none` means the element is absent from the document. -/
structure Doc where
  prosemirror : Option String
  textarea : Option String
  deriving DecidableEq

/-- The handle returned by `findEditor`: which surface was found and its
current text. -/
inductive EditorHandle where
  | prosemirrorEd (text : String)
  | textareaEd (text : String)
  deriving DecidableEq

/-- `findEditor`: prefer the ProseMirror editor, fall back to a visible
textarea, else `null`. -/
def findEditor (d : Doc) : Option EditorHandle :=
  match d.prosemirror with
  | some t => some (.prosemirrorEd t)
  | none =>
    match d.textarea with
    | some t => some (.textareaEd t)
    | none => none

/-- `readPrompt`: empty string when no editor is found, otherwise the
text of the surface, trimmed. -/
def readPrompt (d : Doc) : String :=
  match findEditor d with
  | none => ""
  | some (.prosemirrorEd t) => trimString t
  | some (.textareaEd t) => trimString t

/-- `writePrompt(text)`: returns `false` when `findEditor` yields nothing;
on the ProseMirror path it rewrites the editor content to `text` and also
syncs the fallback textarea when present; on the textarea path it sets the
value.  Returns the updated document and the boolean result. -/
def writePrompt (d : Doc) (text : String) : Doc × Bool :=
  match findEditor d with
  | none => (d, false)
  | some (.prosemirrorEd _) =>
    ({ prosemirror := some text, textarea := d.textarea.map (fun _ => text) }, true)
  | some (.textareaEd _) => ({ d with textarea := some text }, true)

/-- The text an observer would read back from whichever surface
`findEditor` resolves to. -/
def surfaceText (d : Doc) : Option String :=
  match findEditor d with
  | none => none
  | some (.prosemirrorEd t) => some t
  | some (.textareaEd t) => some t

/-- `getActiveItemId`: `currentSettings?.activeItemId || null` (the empty
string is falsy, hence mapped to `null`). -/
def getActiveItemId (s : Settings) : Option String :=
  match s.activeItemId with
  | none => none
  | some id => if id = "" then none else some id

/-- `getActiveItem`: resolve the active id against the item list;
`items.find(i => i.id === id) || null`. -/
def getActiveItem (s : Settings) : Option Item :=
  match getActiveItemId s with
  | none => none
  | some id => s.items.find? (fun i => i.id = id)

/-- Observable side effects of the content script, logged in execution
order: a toast notice, a write into the editor, pushing a correlation
record, triggering the host submit action (`sendPrompt`), the
`BOOST_PROMPT` runtime message to the background worker, and opening the
preview panel. -/
inductive Effect where
  | toast (msg : String)
  | write (text : String)
  | enqueue (original optimized : String)
  | submit
  | netRequest (originalPrompt rule : String)
  | preview (originalPrompt optimizedPrompt : String)
  deriving DecidableEq

/-- The content-script state touched by the modelled handlers: the
`isProcessing` single-flight flag, the settings snapshot, the document,
the `pendingHistory` correlation queue, and the accumulated effect log. -/
structure CState where
  isProcessing : Bool
  settings : Settings
  doc : Doc
  pendingHistory : List HistRecord
  effects : List Effect
  deriving DecidableEq

/-- Append one effect to the log. -/
def addEffect (st : CState) (e : Effect) : CState :=
  { st with effects := st.effects ++ [e] }

/-- `onBoostClick` from the content script (part_002).  The asynchronous
`chrome.runtime.sendMessage` callback is flattened: `response` is the
value the background worker answers with (`Except.error e` covers both a
messaging failure and an `ok: false` reply, which the code handles
identically: toast, then clear the processing flag).  `setTimeout`-deferred
`sendPrompt` calls are logged as a `submit` effect in schedule order. -/
def onBoostClick (st : CState) (response : Except String String) : CState :=
  if st.isProcessing then st
  else
    match getActiveItem st.settings with
    | none => addEffect st (.toast "Please select a mode before clicking Boost.")
    | some active =>
      let originalPrompt := readPrompt st.doc
      let rule := trimString active.content
      if active.type = "append" then
        if rule = "" then addEffect st (.toast "Selected Append item is empty.")
        else
          let finalText := if originalPrompt ≠ "" then originalPrompt ++ "\n" ++ rule else rule
          let res := writePrompt st.doc finalText
          if res.2 = false then
            { addEffect st (.toast "Unable to update the chat input field.") with
                isProcessing := false }
          else
            { st with
                doc := res.1,
                pendingHistory := st.pendingHistory ++ [⟨originalPrompt, finalText⟩],
                effects := st.effects ++
                  [.write finalText, .enqueue originalPrompt finalText, .submit],
                isProcessing := false }
      else
        let st1 := { st with
          isProcessing := true,
          effects := st.effects ++ [.netRequest originalPrompt rule] }
        match response with
        | .error err => { addEffect st1 (.toast err) with isProcessing := false }
        | .ok optimizedPrompt =>
          if st1.settings.previewBeforeSend then
            { addEffect st1 (.preview originalPrompt optimizedPrompt) with
                isProcessing := false }
          else
            let res := writePrompt st1.doc optimizedPrompt
            if res.2 = false then
              { addEffect st1 (.toast "Unable to update the chat input field.") with
                  isProcessing := false }
            else
              { st1 with
                  doc := res.1,
                  pendingHistory := st1.pendingHistory ++ [⟨originalPrompt, optimizedPrompt⟩],
                  effects := st1.effects ++
                    [.write optimizedPrompt, .enqueue originalPrompt optimizedPrompt, .submit],
                  isProcessing := false }

/-- `applyOptimizedPrompt({originalPrompt, optimizedPrompt, autoSend})`:
write the optimized text, toast and reset on failure, otherwise push the
correlation record and, when `autoSend`, schedule `sendPrompt`; the
processing flag is cleared in every path. -/
def applyOptimizedPrompt (st : CState) (originalPrompt optimizedPrompt : String)
    (autoSend : Bool) : CState :=
  let res := writePrompt st.doc optimizedPrompt
  if res.2 = false then
    { addEffect st (.toast "Unable to update the chat input field.") with
        isProcessing := false }
  else
    { st with
        doc := res.1,
        pendingHistory := st.pendingHistory ++ [⟨originalPrompt, optimizedPrompt⟩],
        effects := st.effects ++
          ([.write optimizedPrompt, .enqueue originalPrompt optimizedPrompt] ++
            if autoSend then [.submit] else []),
        isProcessing := false }

/-- The Use Original click handler of the preview panel:
`applyOptimizedPrompt({ originalPrompt, optimizedPrompt: originalPrompt,
autoSend: !!sendAfterChoice })`. -/
def useOriginalChoice (st : CState) (originalPrompt : String)
    (sendAfterChoice : Bool) : CState :=
  applyOptimizedPrompt st originalPrompt originalPrompt sendAfterChoice

/-- `handleBoostRequest` from the background service worker, with the call
to `callLLM` abstracted by its would-be result `llmResult`.  Returns the
response sent back to the content script and whether `callLLM` was
reached.  The guard `!originalPrompt || !originalPrompt.trim()` is exactly
`trimString originalPrompt = ""`. -/
def handleBoostRequest (originalPrompt : String) (llmResult : String) :
    Except String String × Bool :=
  if trimString originalPrompt = "" then (.error "Prompt is empty.", false)
  else (.ok llmResult, true)

/-- The boosted request round trip: the content script reads the draft,
sends it to the background worker, and runs its response callback. -/
def boostedRoundTrip (st : CState) (llmResult : String) : CState × Bool :=
  let r := handleBoostRequest (readPrompt st.doc) llmResult
  (onBoostClick st r.1, r.2)

/-- `deleteItem(id)` from the options page (part_004), after the user
confirms: filter the item out and persist
`{ ...state.settings, items, bindings: [] }` — every other settings field,
including `activeItemId`, is carried over unchanged by the spread. -/
def deleteItem (s : Settings) (del : String) : Settings :=
  { s with items := s.items.filter (fun i => i.id ≠ del), bindings := [] }

/-- The quick-access buttons `renderModeButtons` displays: computed at
render time as `items.slice(0, 3)` on the current settings. -/
def renderModeButtons (s : Settings) : List Item :=
  s.items.take 3

/-! ## Supporting lemmas -/

lemma replaceAllChar_append (target : Char) (rep : List Char) (a b : List Char) :
    replaceAllChar target rep (a ++ b) =
      replaceAllChar target rep a ++ replaceAllChar target rep b := by
  simp [replaceAllChar]

lemma escapeList_append (a b : List Char) :
    (escapeHtml ⟨a ++ b⟩).data = (escapeHtml ⟨a⟩).data ++ (escapeHtml ⟨b⟩).data := by
  simp [escapeHtml, replaceAllChar_append]

lemma escapeList_singleton (c : Char) :
    (escapeHtml ⟨[c]⟩).data = escapeChar c := by
  by_cases h1 : c = '&'
  · subst h1; decide
  by_cases h2 : c = '<'
  · subst h2; decide
  by_cases h3 : c = '>'
  · subst h3; decide
  by_cases h4 : c = '"'
  · subst h4; decide
  by_cases h5 : c = '\''
  · subst h5; decide
  simp [escapeHtml, escapeChar, replaceAllChar, h1, h2, h3, h4, h5]

lemma escapeList_eq (l : List Char) :
    (escapeHtml ⟨l⟩).data = l.flatMap escapeChar := by
  induction l with
  | nil => decide
  | cons c t ih =>
    have h : (c :: t) = [c] ++ t := rfl
    rw [h, escapeList_append, escapeList_singleton, List.flatMap_append, ih]
    simp

lemma escapeChar_no_special (a c : Char) (h : c ∈ escapeChar a) :
    c ≠ '<' ∧ c ≠ '>' ∧ c ≠ '"' ∧ c ≠ '\'' := by
  by_cases h1 : a = '&'
  · subst h1; simp [escapeChar] at h
    rcases h with rfl | rfl | rfl | rfl | rfl <;> decide
  by_cases h2 : a = '<'
  · subst h2; simp [escapeChar] at h
    rcases h with rfl | rfl | rfl | rfl <;> decide
  by_cases h3 : a = '>'
  · subst h3; simp [escapeChar] at h
    rcases h with rfl | rfl | rfl | rfl <;> decide
  by_cases h4 : a = '"'
  · subst h4; simp [escapeChar] at h
    rcases h with rfl | rfl | rfl | rfl | rfl | rfl <;> decide
  by_cases h5 : a = '\''
  · subst h5; simp [escapeChar] at h
    rcases h with rfl | rfl | rfl | rfl | rfl | rfl <;> decide
  simp [escapeChar, h1, h2, h3, h4, h5] at h
  subst h
  exact ⟨h2, h3, h4, h5⟩

/-! ## Claim theorems -/

/-- C10: for every input string, `escapeHtml` replaces every occurrence of
the five special characters by its HTML entity (it equals the
character-wise entity expansion), and consequently its output contains no
literal `<`, `>`, double quote or apostrophe character. -/
theorem escapeHtml_entities_and_no_special (s : String) :
    (escapeHtml s).data = s.data.flatMap escapeChar ∧
      ∀ c ∈ (escapeHtml s).data, c ≠ '<' ∧ c ≠ '>' ∧ c ≠ '"' ∧ c ≠ '\'' := by
  have he : (escapeHtml s).data = s.data.flatMap escapeChar := by
    have : s = ⟨s.data⟩ := rfl
    rw [this, escapeList_eq]
  refine ⟨he, ?_⟩
  intro c hc
  rw [he] at hc
  rcases List.mem_flatMap.mp hc with ⟨a, _, hmem⟩
  exact escapeChar_no_special a c hmem

/-- C10 witness: the theorem applied at a concrete string and a concrete
member character. -/
theorem escapeHtml_entities_and_no_special_witness :
    ('&' : Char) ≠ '<' ∧ ('&' : Char) ≠ '>' ∧ ('&' : Char) ≠ '"' ∧ ('&' : Char) ≠ '\'' :=
  (escapeHtml_entities_and_no_special "<&").2 '&' (by decide)

/-- C9: `writePrompt` fails exactly when no editable surface exists: it
returns `false` precisely when neither the ProseMirror editor nor the
fallback textarea is present, and returns `true` in every other case, for
every input text. -/
theorem writePrompt_false_iff_no_surface (d : Doc) (text : String) :
    ((writePrompt d text).2 = false ↔ d.prosemirror = none ∧ d.textarea = none) ∧
      ((writePrompt d text).2 = true ↔ findEditor d ≠ none) := by
  rcases d with ⟨pm, ta⟩
  cases pm <;> cases ta <;> simp [writePrompt, findEditor]

/-- C2 counterexample: the claim fails in the Reviewing state.  A boosted
click from idle with preview enabled ends with the preview panel open and
the processing flag already cleared (showPreview finishes with
setProcessingState(false)) — the job is still in flight, awaiting the
preview decision, with no write or submit logged yet — and a second Boost
click in that state is not a no-op: it changes the state and sends a
second network request. -/
theorem secondBoost_during_review_counterexample :
    onBoostClick
        ⟨false, ⟨[⟨"i1", "n", "boosted", "rule"⟩], some "i1", true, []⟩,
          ⟨some "draft", none⟩, [], []⟩ (.ok "R1") =
      ⟨false, ⟨[⟨"i1", "n", "boosted", "rule"⟩], some "i1", true, []⟩,
        ⟨some "draft", none⟩, [],
        [.netRequest "draft" "rule", .preview "draft" "R1"]⟩ ∧
      onBoostClick
          ⟨false, ⟨[⟨"i1", "n", "boosted", "rule"⟩], some "i1", true, []⟩,
            ⟨some "draft", none⟩, [],
            [.netRequest "draft" "rule", .preview "draft" "R1"]⟩ (.ok "R2") ≠
        ⟨false, ⟨[⟨"i1", "n", "boosted", "rule"⟩], some "i1", true, []⟩,
          ⟨some "draft", none⟩, [],
          [.netRequest "draft" "rule", .preview "draft" "R1"]⟩ := by
  decide

/-- C2 (amended): the single-flight guard is exactly the `isProcessing`
flag, not the whole non-idle job lifetime.  While the flag is set, a
further Boost click leaves the whole state unchanged — no effect is
logged and no record is enqueued.  But showing the preview panel clears
the flag, so in the Reviewing state — reached from an idle boosted click
with preview enabled, which logs its network request and opens the panel
with the job still unresolved — the flag is false and a second Boost
click is accepted rather than rejected: it changes the state (at the
least, it sends a second network request to the background). -/
theorem onBoostClick_noop_only_while_processing
    (st : CState) (r r2 : Except String String) (h : st.isProcessing = true)
    (id name instr draftRaw R D rule : String) (ta : Option String)
    (bnd : List String) (hist : List HistRecord) (effs : List Effect)
    (hid : id ≠ "") (hD : D = trimString draftRaw)
    (hrule : rule = trimString instr) :
    onBoostClick st r = st ∧
      onBoostClick
          ⟨false, ⟨[⟨id, name, "boosted", instr⟩], some id, true, bnd⟩,
            ⟨some draftRaw, ta⟩, hist, effs⟩ (.ok R) =
        ⟨false, ⟨[⟨id, name, "boosted", instr⟩], some id, true, bnd⟩,
          ⟨some draftRaw, ta⟩, hist,
          effs ++ [.netRequest D rule, .preview D R]⟩ ∧
      (⟨false, ⟨[⟨id, name, "boosted", instr⟩], some id, true, bnd⟩,
          ⟨some draftRaw, ta⟩, hist,
          effs ++ [.netRequest D rule, .preview D R]⟩ : CState).isProcessing = false ∧
      onBoostClick
          ⟨false, ⟨[⟨id, name, "boosted", instr⟩], some id, true, bnd⟩,
            ⟨some draftRaw, ta⟩, hist,
            effs ++ [.netRequest D rule, .preview D R]⟩ r2 ≠
        ⟨false, ⟨[⟨id, name, "boosted", instr⟩], some id, true, bnd⟩,
          ⟨some draftRaw, ta⟩, hist,
          effs ++ [.netRequest D rule, .preview D R]⟩ := by
  subst hD hrule
  refine ⟨by simp [onBoostClick, h], ?_, rfl, ?_⟩
  · simp [onBoostClick, getActiveItem, getActiveItemId, readPrompt, findEditor,
      addEffect, hid, List.find?]
  · intro heq
    have hlen := congrArg (fun s : CState => s.effects.length) heq
    rcases r2 with e | o <;>
      simp [onBoostClick, getActiveItem, getActiveItemId, readPrompt, findEditor,
        addEffect, hid, List.find?] at hlen

/-- C2 witness: the amended theorem applied at a concrete busy state and a
concrete review-state setup. -/
theorem onBoostClick_noop_only_while_processing_witness :
    onBoostClick ⟨true, ⟨[], none, false, []⟩, ⟨none, none⟩, [], []⟩ (.ok "x") =
      ⟨true, ⟨[], none, false, []⟩, ⟨none, none⟩, [], []⟩ :=
  (onBoostClick_noop_only_while_processing
    ⟨true, ⟨[], none, false, []⟩, ⟨none, none⟩, [], []⟩ (.ok "x") (.ok "y") rfl
    "i1" "n" "rule" "draft" "R" "draft" "rule" none [] [] []
    (by decide) (by decide) (by decide)).1

/-- C1 counterexample: with queue `[(d1,r1),(d2,r2)]` and an observed user
message `zzz` whose normalized text contains neither normalized `r1` nor
normalized `r2`, the code leaves the queue unchanged (it does not discard
the oldest record as the claim states); moreover, when the oldest record
has a whitespace-only optimized text (so containment holds trivially), the
record is dequeued without any annotation, against the first half of the
claim. -/
theorem annotate_counterexample :
    (containsSubstr (normalizeText "r1").data (normalizeText "zzz").data = false ∧
      containsSubstr (normalizeText "r2").data (normalizeText "zzz").data = false ∧
      annotateIfUserMessage true false "zzz" [⟨"d1", "r1"⟩, ⟨"d2", "r2"⟩] =
        ⟨[⟨"d1", "r1"⟩, ⟨"d2", "r2"⟩], none⟩ ∧
      ([⟨"d1", "r1"⟩, ⟨"d2", "r2"⟩] : List HistRecord) ≠ [⟨"d2", "r2"⟩]) ∧
    (containsSubstr (normalizeText "  ").data (normalizeText "zzz").data = true ∧
      annotateIfUserMessage true false "zzz" [⟨"d1", "  "⟩, ⟨"d2", "r2"⟩] =
        ⟨[⟨"d2", "r2"⟩], none⟩) := by
  decide

/-- C1 (amended): for a user message not yet annotated, with queue
`[(D1,R1),(D2,R2)]`, provided the normalized message text and the
normalized `R1` are both non-empty: if the normalized message text
contains the normalized `R1`, the message is annotated with `D1` and the
queue becomes `[(D2,R2)]`; if it does not contain it, the queue is left
unchanged — the unmatched oldest record is retained, not discarded — and
no annotation occurs (a record is only dequeued unmatched when its
normalized optimized text is empty). -/
theorem annotate_match_dequeues_nonmatch_retains
    (D1 R1 D2 R2 msg : String)
    (hmsg : normalizeText msg ≠ "") (hR1 : normalizeText R1 ≠ "") :
    (containsSubstr (normalizeText R1).data (normalizeText msg).data = true →
      annotateIfUserMessage true false msg [⟨D1, R1⟩, ⟨D2, R2⟩] =
        ⟨[⟨D2, R2⟩], some D1⟩) ∧
    (containsSubstr (normalizeText R1).data (normalizeText msg).data = false →
      annotateIfUserMessage true false msg [⟨D1, R1⟩, ⟨D2, R2⟩] =
        ⟨[⟨D1, R1⟩, ⟨D2, R2⟩], none⟩) := by
  constructor <;> intro hc <;>
    simp [annotateIfUserMessage, hmsg, hR1, hc]

/-- C1 witness: the amended theorem applied at concrete records and a
concrete matching message. -/
theorem annotate_match_dequeues_nonmatch_retains_witness :
    annotateIfUserMessage true false "xx R1 yy" [⟨"d1", "r1"⟩, ⟨"d2", "r2"⟩] =
      ⟨[⟨"d2", "r2"⟩], some "d1"⟩ :=
  (annotate_match_dequeues_nonmatch_retains "d1" "r1" "d2" "r2" "xx R1 yy"
    (by decide) (by decide)).1 (by decide)

/-- C6 counterexample: deleting the item the active reference points at
leaves the stored `activeItemId` dangling — the options-page `deleteItem`
persists the spread of the old settings, which carries `activeItemId`
over unchanged, so the invariant "a non-null active id references an
existing template" is broken right after the delete. -/
theorem deleteItem_counterexample :
    (deleteItem ⟨[⟨"a", "name", "append", "x"⟩], some "a", false, []⟩ "a").activeItemId =
        some "a" ∧
      (deleteItem ⟨[⟨"a", "name", "append", "x"⟩], some "a", false, []⟩ "a").items = [] := by
  decide

/-- C6 (amended): `deleteItem` removes every item with the deleted id and
clears the legacy bindings, but leaves the stored active-template
reference untouched, so the reference may dangle; the dangling reference
is neutralized at read time instead: whenever the active id matches no
existing item, `getActiveItem` resolves to `none`. -/
theorem deleteItem_keeps_active_reference (s : Settings) (del : String) :
    (deleteItem s del).activeItemId = s.activeItemId ∧
      (∀ i ∈ (deleteItem s del).items, i.id ≠ del) ∧
      (deleteItem s del).bindings = [] ∧
      ∀ t : Settings, (∀ i ∈ t.items, some i.id ≠ t.activeItemId) →
        getActiveItem t = none := by
  refine ⟨rfl, ?_, rfl, ?_⟩
  · intro i hi
    have := List.of_mem_filter hi
    simpa using this
  · intro t ht
    unfold getActiveItem getActiveItemId
    rcases hA : t.activeItemId with _ | id
    · rfl
    · by_cases hid : id = ""
      · simp [hid]
      · simp only [hid, if_false]
        apply List.find?_eq_none.mpr
        intro i hi
        have := ht i hi
        rw [hA] at this
        simp only [decide_eq_true_eq]
        intro hEq
        exact this (by rw [hEq])

/-- C6 witness: the amended theorem applied at a concrete settings value,
plus the read-time neutralization at a concrete dangling reference. -/
theorem deleteItem_keeps_active_reference_witness :
    (deleteItem ⟨[⟨"a", "name", "append", "x"⟩], some "a", false, []⟩ "a").bindings = [] ∧
      getActiveItem ⟨[], some "a", false, []⟩ = none := by
  refine ⟨(deleteItem_keeps_active_reference
      ⟨[⟨"a", "name", "append", "x"⟩], some "a", false, []⟩ "a").2.2.1, ?_⟩
  exact (deleteItem_keeps_active_reference
      ⟨[⟨"a", "name", "append", "x"⟩], some "a", false, []⟩ "a").2.2.2
    ⟨[], some "a", false, []⟩ (by intro i hi; cases hi)

/-- C8: the quick-access controls are a read-time projection of the first
three items of the current user-ordered list: `renderModeButtons` always
yields `items.take 3` of the settings it is rendered from, and any two
settings with the same item list render the same buttons — no separately
stored selection (such as the deprecated bindings or the active id) can
make the two drift apart. -/
theorem renderModeButtons_is_top3_projection (s t : Settings)
    (h : t.items = s.items) :
    renderModeButtons s = s.items.take 3 ∧
      renderModeButtons t = renderModeButtons s := by
  exact ⟨rfl, by simp [renderModeButtons, h]⟩

/-- C8 witness: the projection theorem applied to two concrete settings
that differ in everything but the item list. -/
theorem renderModeButtons_is_top3_projection_witness :
    renderModeButtons ⟨[⟨"a", "n", "append", "x"⟩], none, false, []⟩ =
        [⟨"a", "n", "append", "x"⟩].take 3 ∧
      renderModeButtons ⟨[⟨"a", "n", "append", "x"⟩], some "a", true, ["b"]⟩ =
        renderModeButtons ⟨[⟨"a", "n", "append", "x"⟩], none, false, []⟩ :=
  renderModeButtons_is_top3_projection
    ⟨[⟨"a", "n", "append", "x"⟩], none, false, []⟩
    ⟨[⟨"a", "n", "append", "x"⟩], some "a", true, ["b"]⟩ rfl

/-- C3 counterexample: with draft `a` and an Append template whose body is
the non-empty string `b` followed by a space, the code writes
`a`, newline, `b` — the body is trimmed first — which differs from
draft + newline + body as the claim states it. -/
theorem appendBranch_counterexample :
    (onBoostClick
        ⟨false, ⟨[⟨"i1", "n", "append", "b "⟩], some "i1", false, []⟩,
          ⟨some "a", none⟩, [], []⟩ (.ok "")).doc.prosemirror = some "a\nb" ∧
      ("a\nb" : String) ≠ "a" ++ "\n" ++ "b " := by
  decide

/-- C3 (amended): for every draft and Append template, with
`draft` the trimmed surface text and `rule` the trimmed body: if `rule` is
empty (the body is empty or whitespace-only) the request is rejected with
a toast before any write; otherwise the final text written to the editor
is `draft`, a newline, `rule` when `draft` is non-empty, and `rule` alone
when it is empty, followed by enqueueing the correlation record and the
submit. -/
theorem appendBranch_writes_draft_newline_trimmedBody
    (id name body draftRaw : String) (ta : Option String)
    (pv : Bool) (bnd : List String) (hist : List HistRecord) (effs : List Effect)
    (r : Except String String) (hid : id ≠ "")
    (draft rule finalText : String)
    (hdraft : draft = trimString draftRaw) (hrule : rule = trimString body)
    (hfinal : finalText = if draft ≠ "" then draft ++ "\n" ++ rule else rule) :
    (rule = "" →
      onBoostClick
          ⟨false, ⟨[⟨id, name, "append", body⟩], some id, pv, bnd⟩,
            ⟨some draftRaw, ta⟩, hist, effs⟩ r =
        ⟨false, ⟨[⟨id, name, "append", body⟩], some id, pv, bnd⟩,
          ⟨some draftRaw, ta⟩, hist,
          effs ++ [.toast "Selected Append item is empty."]⟩) ∧
    (rule ≠ "" →
      onBoostClick
          ⟨false, ⟨[⟨id, name, "append", body⟩], some id, pv, bnd⟩,
            ⟨some draftRaw, ta⟩, hist, effs⟩ r =
        ⟨false, ⟨[⟨id, name, "append", body⟩], some id, pv, bnd⟩,
          ⟨some finalText, ta.map fun _ => finalText⟩,
          hist ++ [⟨draft, finalText⟩],
          effs ++ [.write finalText, .enqueue draft finalText, .submit]⟩) := by
  subst hdraft hrule hfinal
  constructor <;> intro h <;>
    simp [onBoostClick, getActiveItem, getActiveItemId, readPrompt, findEditor,
      writePrompt, addEffect, hid, h, List.find?]

/-- C3 witness: the amended theorem applied at a concrete draft and a
concrete Append template with non-empty (already trimmed) body. -/
theorem appendBranch_writes_draft_newline_trimmedBody_witness :
    onBoostClick
        ⟨false, ⟨[⟨"i1", "n", "append", "b"⟩], some "i1", false, []⟩,
          ⟨some "a", none⟩, [], []⟩ (.ok "") =
      ⟨false, ⟨[⟨"i1", "n", "append", "b"⟩], some "i1", false, []⟩,
        ⟨some "a\nb", none⟩, [⟨"a", "a\nb"⟩],
        [.write "a\nb", .enqueue "a" "a\nb", .submit]⟩ :=
  (appendBranch_writes_draft_newline_trimmedBody "i1" "n" "b" "a" none false [] [] []
      (.ok "") (by decide) "a" "b" "a\nb" (by decide) (by decide) (by decide)).2
    (by decide)

/-- C4: with preview disabled, when the background answers the Boost
request with text `R`, the editor ends up containing exactly `R` (the
fallback textarea, when present, is synced to `R` as well), the
correlation record `(D, R)` for the trimmed draft `D` is enqueued, and in
the effect log the enqueue strictly precedes the submit. -/
theorem boostedNoPreview_roundTrip (id name instr draftRaw R : String)
    (ta : Option String) (bnd : List String) (hist : List HistRecord)
    (effs : List Effect) (hid : id ≠ "")
    (D : String) (hD : D = trimString draftRaw) :
    onBoostClick
        ⟨false, ⟨[⟨id, name, "boosted", instr⟩], some id, false, bnd⟩,
          ⟨some draftRaw, ta⟩, hist, effs⟩ (.ok R) =
      ⟨false, ⟨[⟨id, name, "boosted", instr⟩], some id, false, bnd⟩,
        ⟨some R, ta.map fun _ => R⟩, hist ++ [⟨D, R⟩],
        effs ++ [.netRequest D (trimString instr), .write R, .enqueue D R, .submit]⟩ ∧
      surfaceText
        (onBoostClick
          ⟨false, ⟨[⟨id, name, "boosted", instr⟩], some id, false, bnd⟩,
            ⟨some draftRaw, ta⟩, hist, effs⟩ (.ok R)).doc = some R := by
  subst hD
  constructor <;>
    simp [onBoostClick, getActiveItem, getActiveItemId, readPrompt, findEditor,
      writePrompt, surfaceText, addEffect, hid, List.find?]

/-- C4 witness: the round-trip theorem applied at a concrete draft,
template and response. -/
theorem boostedNoPreview_roundTrip_witness :
    onBoostClick
        ⟨false, ⟨[⟨"i1", "n", "boosted", "rule"⟩], some "i1", false, []⟩,
          ⟨some "Tell me about dogs.", none⟩, [], []⟩ (.ok "Boosted!") =
      ⟨false, ⟨[⟨"i1", "n", "boosted", "rule"⟩], some "i1", false, []⟩,
        ⟨some "Boosted!", none⟩,
        [⟨"Tell me about dogs.", "Boosted!"⟩],
        [.netRequest "Tell me about dogs." "rule", .write "Boosted!",
          .enqueue "Tell me about dogs." "Boosted!", .submit]⟩ :=
  (boostedNoPreview_roundTrip "i1" "n" "rule" "Tell me about dogs." "Boosted!"
      none [] [] [] (by decide) "Tell me about dogs." (by decide)).1

/-- C5: when the user rejects the boosted suggestion in the preview panel
(the Use Original choice, with `sendAfterChoice` true as the boosted click
passes it), the text written back is exactly the original draft `D`, the
correlation record `(D, D)` is enqueued, and a submit is still triggered —
the rejection completes as a send instead of silently discarding the
action. -/
theorem useOriginal_writes_and_sends_draft (st : CState) (D : String)
    (h : findEditor st.doc ≠ none) :
    surfaceText (useOriginalChoice st D true).doc = some D ∧
      (useOriginalChoice st D true).pendingHistory = st.pendingHistory ++ [⟨D, D⟩] ∧
      (useOriginalChoice st D true).effects =
        st.effects ++ [.write D, .enqueue D D, .submit] ∧
      (useOriginalChoice st D true).isProcessing = false := by
  rcases st with ⟨proc, sett, ⟨pm, ta⟩, hist, effs⟩
  cases pm <;> cases ta <;>
    simp_all [useOriginalChoice, applyOptimizedPrompt, writePrompt, findEditor,
      surfaceText, addEffect]

/-- C5 witness: the rejection path applied at a concrete state and draft. -/
theorem useOriginal_writes_and_sends_draft_witness :
    surfaceText
        (useOriginalChoice
          ⟨false, ⟨[], none, true, []⟩, ⟨some "x", none⟩, [], []⟩ "D" true).doc =
      some "D" :=
  (useOriginal_writes_and_sends_draft
    ⟨false, ⟨[], none, true, []⟩, ⟨some "x", none⟩, [], []⟩ "D" (by decide)).1

/-- C7: for an empty draft (the surface text trims to the empty string)
with a boosted template active, the round trip through the background
worker rejects the request as a user-input error: `callLLM` is never
reached, the editor is not written, no submit is triggered and no record
is enqueued — the only observable outcomes are the runtime message to the
background and the error toast. -/
theorem emptyDraft_boosted_rejected (id name instr pmRaw llm : String)
    (ta : Option String) (pv : Bool) (bnd : List String)
    (hist : List HistRecord) (effs : List Effect)
    (hid : id ≠ "") (hdraft : trimString pmRaw = "") :
    (boostedRoundTrip
        ⟨false, ⟨[⟨id, name, "boosted", instr⟩], some id, pv, bnd⟩,
          ⟨some pmRaw, ta⟩, hist, effs⟩ llm).2 = false ∧
      (boostedRoundTrip
          ⟨false, ⟨[⟨id, name, "boosted", instr⟩], some id, pv, bnd⟩,
            ⟨some pmRaw, ta⟩, hist, effs⟩ llm).1 =
        ⟨false, ⟨[⟨id, name, "boosted", instr⟩], some id, pv, bnd⟩,
          ⟨some pmRaw, ta⟩, hist,
          effs ++ [.netRequest "" (trimString instr), .toast "Prompt is empty."]⟩ := by
  have h0 : trimString "" = "" := by decide
  constructor <;>
    simp [boostedRoundTrip, handleBoostRequest, onBoostClick, readPrompt,
      findEditor, getActiveItem, getActiveItemId, addEffect, hid, hdraft, h0,
      List.find?]

/-- C7 witness: the rejection applied at a concrete whitespace-only
draft. -/
theorem emptyDraft_boosted_rejected_witness :
    (boostedRoundTrip
        ⟨false, ⟨[⟨"i1", "n", "boosted", "rule"⟩], some "i1", false, []⟩,
          ⟨some "  ", none⟩, [], []⟩ "llm").2 = false :=
  (emptyDraft_boosted_rejected "i1" "n" "rule" "  " "llm" none false [] [] []
    (by decide) (by decide)).1

end PromptBooster
